import Mathlib

/-!
Verification of the conversation-orchestration and resilient-invocation core of
the repository (src/agents/base_agent.py, src/orchestrator.py,
src/agents/triagem_agent.py), as a shallow embedding in Lean 4.

Conventions of the embedding:
* Python mutable instance/class state becomes explicit state records threaded
  through the functions.
* The remote LLM provider and the LLM-driven helper `processar_com_comandos`
  are modelled as oracle function parameters: the code under verification never
  inspects them beyond their returned values.
* Python exceptions become `Except String` values (the former exception
  message being the `String`).
* The unbounded Python `while` loop of `invocar_llm` is embedded with an
  explicit fuel parameter; termination of the source loop is the theorem that
  a concrete fuel bound computed from the pool sizes is never exhausted.
-/

namespace Desafio

/-! ### String helpers (substring test and lowercasing used by the gateway) -/

/-- Is the needle a contiguous sublist of the haystack?  Mirrors Python's
`needle in haystack` on strings (used by `_is_quota_exceeded_error`). -/
def subLista (agulha : List Char) : List Char → Bool
  | [] => agulha.isEmpty
  | c :: resto => agulha.isPrefixOf (c :: resto) || subLista agulha resto

/-- Lowercase a string character by character (Python `str.lower`). -/
def minusculas (s : String) : List Char :=
  s.toList.map Char.toLower

/-- Mirror of `BaseAgent._is_quota_exceeded_error` (base_agent.py lines
249-255): the error text, lowercased, contains "429", "resource_exhausted",
"quota" or "rate limit". -/
def isQuotaExceededError (e : String) : Bool :=
  let s := minusculas e
  subLista "429".toList s || subLista "resource_exhausted".toList s ||
    subLista "quota".toList s || subLista "rate limit".toList s

/-! ### The model/credential pool state (class-level state of `BaseAgent`) -/

/-- The gateway's pool state: mirrors `BaseAgent.MODELOS_FALLBACK`,
`_api_keys_disponiveis`, `_api_key_atual_idx`, `_modelos_esgotados_por_key`,
`self.api_key`, `self.modelo_atual_idx` and `self.modelo_atual`.
`self.modelos_esgotados` is not a separate field: in the source it is an alias
of `_modelos_esgotados_por_key[self.api_key]`, recovered here by lookup. -/
structure GwState where
  modelosFallback : List String
  apiKeys : List String
  apiKeyIdx : Nat
  apiKey : String
  esgotados : List (String × List String)
  modeloAtualIdx : Nat
  modeloAtual : String
  deriving DecidableEq, Repr

/-- Lookup of the exhausted-model set of one api key (empty if absent). -/
def lookupEsgotados (m : List (String × List String)) (k : String) : List String :=
  ((m.find? (fun p => p.1 == k)).map (fun p => p.2)).getD []

/-- The set `self.modelos_esgotados` aliased to the current key's entry. -/
def esgotadosAtual (st : GwState) : List String :=
  lookupEsgotados st.esgotados st.apiKey

/-- Set insertion (Python `set.add`): idempotent. -/
def setInsere (l : List String) (x : String) : List String :=
  if l.contains x then l else l ++ [x]

/-- Add a model to the exhausted set of a key (creating the entry if it is
somehow absent; the source guarantees presence at initialization). -/
def addEsgotado (m : List (String × List String)) (k modelo : String) :
    List (String × List String) :=
  if (m.find? (fun p => p.1 == k)).isSome then
    m.map (fun p => if p.1 == k then (p.1, setInsere p.2 modelo) else p)
  else
    m ++ [(k, [modelo])]

/-- Ensure a key has an entry in the exhausted map (Python
`if key not in cls._modelos_esgotados_por_key: ... = set()`). -/
def ensureKey (m : List (String × List String)) (k : String) :
    List (String × List String) :=
  if (m.find? (fun p => p.1 == k)).isSome then m else m ++ [(k, [])]

/-- Mirror of `BaseAgent._encontrar_modelo_disponivel` (lines 137-149). -/
def encontrarModeloDisponivel (st : GwState) (preferido : String) : String :=
  if (esgotadosAtual st).contains preferido then
    match st.modelosFallback.find? (fun m => !(esgotadosAtual st).contains m) with
    | some m => m
    | none => preferido
  else preferido

/-- First index at or after `idx` whose model is not exhausted; helper for
the `for idx in range(modelo_atual_idx + 1, len(MODELOS_FALLBACK))` search of
`_trocar_modelo`. -/
def procuraProximo (esg : List String) : List String → Nat → Option (Nat × String)
  | [], _ => none
  | m :: resto, idx =>
      if !esg.contains m then some (idx, m) else procuraProximo esg resto (idx + 1)

/-- Mirror of `BaseAgent._trocar_api_key` (lines 73-86): advance the shared
key index if another key exists, initializing its exhausted set. -/
def trocarApiKey (st : GwState) : Bool × GwState :=
  if st.apiKeyIdx < st.apiKeys.length - 1 then
    let novoIdx := st.apiKeyIdx + 1
    let novaKey := st.apiKeys.getD novoIdx ""
    (true, { st with apiKeyIdx := novoIdx, esgotados := ensureKey st.esgotados novaKey })
  else (false, st)

/-- Body of `_trocar_modelo` after the initial mark: move to the next
non-exhausted model of the same key (lines 183-195); else advance to the next
api key and restart at the first fallback model (lines 198-217); else report
failure. -/
def trocarModeloAux (st1 : GwState) : Bool × GwState :=
  match procuraProximo (esgotadosAtual st1)
      (st1.modelosFallback.drop (st1.modeloAtualIdx + 1)) (st1.modeloAtualIdx + 1) with
  | some (idx, modelo) =>
      (true, { st1 with modeloAtualIdx := idx, modeloAtual := modelo })
  | none =>
      match trocarApiKey st1 with
      | (true, st2) =>
          (true, { st2 with
                    apiKey := st2.apiKeys.getD st2.apiKeyIdx "",
                    esgotados := ensureKey st2.esgotados (st2.apiKeys.getD st2.apiKeyIdx ""),
                    modeloAtualIdx := 0,
                    modeloAtual := st2.modelosFallback.headD "" })
      | (false, st2) => (false, st2)

/-- Mirror of `BaseAgent._trocar_modelo` (lines 172-219): mark the current
model exhausted for the current key (line 180, kept whatever the outcome),
then search for a replacement. -/
def trocarModelo (st : GwState) : Bool × GwState :=
  trocarModeloAux { st with esgotados := addEsgotado st.esgotados st.apiKey st.modeloAtual }

/-- Mirror of `BaseAgent._sincronizar_com_estado_compartilhado` (lines
221-247): if the instance's key differs from the shared pool's current key,
re-point at the shared state and restart the model search. -/
def sincronizar (st : GwState) : GwState :=
  let atual := st.apiKeys.getD st.apiKeyIdx ""
  if st.apiKey == atual then st
  else
    let st1 := { st with apiKey := atual, esgotados := ensureKey st.esgotados atual }
    let modelo := encontrarModeloDisponivel st1 (st1.modelosFallback.headD "")
    { st1 with modeloAtualIdx := 0, modeloAtual := modelo }

/-! ### Provider responses and the gateway loop -/

/-- One tool call as produced by the provider (`resposta.tool_calls` items). -/
structure ToolCall where
  name : String
  args : List (String × String)
  id : String
  deriving DecidableEq, Repr

/-- The shapes `resposta.content` can take (None / str / list of parts). -/
inductive RespContent
  | vazio
  | texto (s : String)
  | lista (itens : List (Option String))
  deriving DecidableEq, Repr

/-- A provider response: content plus the list of requested tool calls. -/
structure LLMResponse where
  content : RespContent
  toolCalls : List ToolCall
  deriving DecidableEq, Repr

/-- Collect the text parts of a list-shaped content: `some t` models both a
`{"type": "text", "text": t}` item and a plain string item (which the source
treats identically, collecting their text); `none` models an item of another
type, which the source skips. -/
def coletaTextos : List (Option String) → List String
  | [] => []
  | some t :: resto => t :: coletaTextos resto
  | none :: resto => coletaTextos resto

/-- Mirror of `BaseAgent._extrair_texto_resposta` (lines 284-311). -/
def extrairTextoResposta : RespContent → String
  | RespContent.vazio => ""
  | RespContent.texto s => s
  | RespContent.lista itens => String.intercalate " " (coletaTextos itens)

/-- Outcome of one raw provider request. -/
inductive ProviderOutcome
  | success (resp : LLMResponse)
  | failure (errText : String)
  deriving DecidableEq, Repr

/-- The remote provider, as a function of (model identifier, api key). -/
def Provider := String → String → ProviderOutcome

/-- Errors `invocar_llm` can raise, tagged by raise site, carrying the
exception message. -/
inductive GwError
  | todosEsgotadosSkip
  | todosEsgotados (msg : String)
  | fatal (msg : String)
  | maxTentativas
  deriving DecidableEq, Repr

/-- Result of the gateway loop, carrying the final value of `tentativas`
(the count of failed provider attempts). -/
inductive GwOutcome
  | ok (resp : LLMResponse) (tentativas : Nat)
  | err (e : GwError) (tentativas : Nat)
  | outOfFuel (tentativas : Nat)
  deriving DecidableEq, Repr

/-- Message of the pool-exhausted error raised inside the quota branch:
`"Todos os modelos esgotados: " + ", ".join(self.modelos_esgotados)`. -/
def mensagemTodosEsgotados (st : GwState) : String :=
  "Todos os modelos esgotados: " ++ String.intercalate ", " (esgotadosAtual st)

/-- Mirror of the `while tentativas < max_tentativas` loop of
`BaseAgent.invocar_llm` (lines 330-437), with explicit fuel.  Iterations that
skip an already-exhausted model do not increment `tentativas`, exactly as in
the source; `tentativas` increments once per provider failure. -/
def invocarLlmLoop (provider : Provider) :
    Nat → GwState → Nat → Nat → GwOutcome × GwState
  | 0, st, tent, _ => (GwOutcome.outOfFuel tent, st)
  | Nat.succ fuel, st0, tent, maxT =>
    if tent < maxT then
      let st := sincronizar st0
      if (esgotadosAtual st).contains st.modeloAtual then
        match trocarModelo st with
        | (true, st2) => invocarLlmLoop provider fuel st2 tent maxT
        | (false, st2) => (GwOutcome.err GwError.todosEsgotadosSkip tent, st2)
      else
        match provider st.modeloAtual st.apiKey with
        | ProviderOutcome.success r => (GwOutcome.ok r tent, st)
        | ProviderOutcome.failure e =>
          if isQuotaExceededError e then
            match trocarModelo st with
            | (true, st2) => invocarLlmLoop provider fuel st2 (tent + 1) maxT
            | (false, st2) =>
                (GwOutcome.err (GwError.todosEsgotados (mensagemTodosEsgotados st2))
                  (tent + 1), st2)
          else
            (GwOutcome.err (GwError.fatal ("Erro ao chamar LLM: " ++ e)) (tent + 1), st)
    else
      (GwOutcome.err GwError.maxTentativas tent, st0)

/-- `max_tentativas = len(self.MODELOS_FALLBACK) * num_keys` where
`num_keys = len(_api_keys_disponiveis) if _api_keys_disponiveis else 1`. -/
def maxTentativas (st : GwState) : Nat :=
  st.modelosFallback.length * (if st.apiKeys.isEmpty then 1 else st.apiKeys.length)

/-- `BaseAgent.invocar_llm` entry point: run the loop from `tentativas = 0`. -/
def invocarLlm (provider : Provider) (fuel : Nat) (st : GwState) : GwOutcome × GwState :=
  invocarLlmLoop provider fuel st 0 (maxTentativas st)

/-- Number of failed attempts reported by an outcome. -/
def GwOutcome.tentativasDe : GwOutcome → Nat
  | GwOutcome.ok _ t => t
  | GwOutcome.err _ t => t
  | GwOutcome.outOfFuel t => t

/-- Well-formedness of a gateway state, established by `BaseAgent.__init__`:
the current key index is in range and names `self.api_key`, and the current
model index is in range of the fallback list. -/
abbrev GwWF (st : GwState) : Prop :=
  st.apiKeyIdx < st.apiKeys.length ∧
  st.apiKey = st.apiKeys.getD st.apiKeyIdx "" ∧
  st.modeloAtualIdx < st.modelosFallback.length

/-- Secondary termination measure: how far the pool pointer can still
advance. -/
def nuMedida (st : GwState) : Nat :=
  (st.apiKeys.length - st.apiKeyIdx) * (st.modelosFallback.length + 1) +
    (st.modelosFallback.length - st.modeloAtualIdx)

/-- Strict upper bound of `nuMedida` over well-formed states. -/
def bConst (st : GwState) : Nat :=
  (st.apiKeys.length + 1) * (st.modelosFallback.length + 1)

/-- Combined termination measure of the gateway loop. -/
def muMedida (st : GwState) (tent maxT : Nat) : Nat :=
  (maxT - tent) * bConst st + nuMedida st

/-- A concrete fuel amount that the gateway loop can never exhaust. -/
def gwFuel (st : GwState) : Nat :=
  (maxTentativas st + 1) * bConst st + 1

/-! ### The tool-calling execution loop (`BaseAgent.processar_com_tools`) -/

/-- Transcript messages (`SystemMessage`, `HumanMessage`, the AI response
object appended inside the loop, and `ToolMessage`). -/
inductive Msg
  | system (content : String)
  | human (content : String)
  | ai (resp : LLMResponse)
  | toolMsg (content : String) (toolCallId : String)
  deriving DecidableEq, Repr

/-- One entry of `tool_calls_executados`: `{name, args, result}`. -/
structure ExecutedCall where
  name : String
  args : List (String × String)
  result : String
  deriving DecidableEq, Repr

/-- A registered tool: a result or a raised exception message, as a function
of the call arguments.  `tools_by_name` becomes an association list. -/
def ToolTable := List (String × (List (String × String) → Except String String))

/-- Executing one tool call (lines 490-499): unknown names and raising tools
are converted to error strings rather than propagated. -/
def execToolCall (tools : ToolTable) (tc : ToolCall) : String :=
  match tools.find? (fun p => p.1 == tc.name) with
  | some par =>
      match par.2 tc.args with
      | Except.ok r => r
      | Except.error e => "Erro ao executar " ++ tc.name ++ ": " ++ e
  | none => "Ferramenta " ++ tc.name ++ " não encontrada"

/-- The `for tool_call in resposta.tool_calls` body (lines 483-511): for each
call, append its `{name, args, result}` record and a `ToolMessage` carrying
`str(result)` and the call id. -/
def processarRodada (tools : ToolTable) :
    List ToolCall → List Msg → List ExecutedCall → List Msg × List ExecutedCall
  | [], msgs, execd => (msgs, execd)
  | tc :: resto, msgs, execd =>
      let r := execToolCall tools tc
      processarRodada tools resto (msgs ++ [Msg.toolMsg r tc.id])
        (execd ++ [{ name := tc.name, args := tc.args, result := r }])

/-- The LLM as seen by the execution loop: what `self.invocar_llm` returns
for a transcript (an exception being an `Except.error`). -/
def LlmOraculo := List Msg → Except String LLMResponse

/-- Mirror of the `while resposta.tool_calls and iteracoes < max_iteracoes`
loop of `processar_com_tools` (lines 477-515).  `restante` stands for
`max_iteracoes - iteracoes`, so the source's guard `iteracoes < max_iteracoes`
is `restante ≠ 0`; the returned `Nat` is the final `restante`, from which the
number of rounds performed is recovered as `max_iteracoes - restante`. -/
def toolLoop (llm : LlmOraculo) (tools : ToolTable) :
    Nat → List Msg → LLMResponse → List ExecutedCall →
    Except String (String × List ExecutedCall × List Msg × Nat)
  | 0, msgs, resp, execd =>
      Except.ok (extrairTextoResposta resp.content, execd, msgs, 0)
  | Nat.succ r, msgs, resp, execd =>
      match resp.toolCalls with
      | [] => Except.ok (extrairTextoResposta resp.content, execd, msgs, Nat.succ r)
      | _ :: _ =>
          let par := processarRodada tools resp.toolCalls (msgs ++ [Msg.ai resp]) execd
          match llm par.1 with
          | Except.ok resp2 => toolLoop llm tools r par.1 resp2 par.2
          | Except.error e => Except.error e

/-- `max_iteracoes = 5  # Limite de segurança` -/
def maxIteracoes : Nat := 5

/-- Mirror of `BaseAgent.processar_com_tools` (lines 439-523): build the
initial transcript (system prompt, last 20 memory messages if requested, the
user message), call the LLM, then run the bounded tool loop.  Besides the
source's pair `(resposta_texto, tool_calls_executados)` the embedding also
returns the final transcript and the number of rounds performed, for the
statements below. -/
def processarComTools (llm : LlmOraculo) (tools : ToolTable)
    (promptSistema : String) (memoria : List Msg) (mensagemUsuario : String)
    (usarMemoria : Bool) :
    Except String (String × List ExecutedCall × List Msg × Nat) :=
  match llm ([Msg.system promptSistema] ++
      (if usarMemoria then memoria.drop (memoria.length - 20) else []) ++
      [Msg.human mensagemUsuario]) with
  | Except.error e => Except.error e
  | Except.ok resposta =>
      match toolLoop llm tools maxIteracoes
          ([Msg.system promptSistema] ++
            (if usarMemoria then memoria.drop (memoria.length - 20) else []) ++
            [Msg.human mensagemUsuario]) resposta [] with
      | Except.ok (t, c, m, restante) => Except.ok (t, c, m, maxIteracoes - restante)
      | Except.error e => Except.error e

/-- Checker of the transcript invariant: scanning left to right, every AI
message carrying tool calls must be immediately followed by one `ToolMessage`
per call, with matching ids in order.  `pendentes` is the list of calls whose
results are still due. -/
def checkMsgs : List Msg → List ToolCall → Bool
  | [], pendentes => pendentes.isEmpty
  | Msg.ai resp :: resto, [] => checkMsgs resto resp.toolCalls
  | Msg.system _ :: resto, [] => checkMsgs resto []
  | Msg.human _ :: resto, [] => checkMsgs resto []
  | Msg.toolMsg _ _ :: resto, [] => checkMsgs resto []
  | Msg.toolMsg _ id :: resto, tc :: tcs => id == tc.id && checkMsgs resto tcs
  | Msg.ai _ :: _, _ :: _ => false
  | Msg.system _ :: _, _ :: _ => false
  | Msg.human _ :: _, _ :: _ => false

/-- Every tool call in the transcript has its matching results appended. -/
def toolCallsCompletos (msgs : List Msg) : Bool :=
  checkMsgs msgs []

/-- A message carries no tool calls (true of every message the shared
conversation memory can contain: it only ever receives plain user/assistant
text via `add_user_message` / `add_ai_message`). -/
def msgSemToolCalls : Msg → Bool
  | Msg.ai resp => resp.toolCalls.isEmpty
  | _ => true

/-- No message of the list carries tool calls. -/
def semToolCalls (msgs : List Msg) : Bool :=
  msgs.all msgSemToolCalls

/-! ### The handoff orchestrator (`src/orchestrator.py`) -/

/-- The registered handlers (fields `agente_triagem` … `agente_cambio`). -/
inductive AgentName
  | triagem
  | credito
  | entrevista
  | cambio
  deriving DecidableEq, Repr

/-- A customer record, as the dict the CSV layer returns. -/
abbrev Cliente := List (String × String)

/-- One entry of `self.contexto["historico"]`. -/
structure HistEntry where
  usuario : String
  agente : String
  agenteAtual : String
  deriving DecidableEq, Repr

/-- `self.contexto` of the orchestrator. -/
structure Contexto where
  cliente : Option Cliente
  cpf : Option String
  autenticado : Bool
  historico : List HistEntry
  deriving DecidableEq, Repr

/-- The dict a handler's `processar` returns (the keys the orchestrator
reads). -/
structure AgentResult where
  resposta : String
  proximoAgente : Option String
  autenticado : Bool
  cliente : Option Cliente
  encerrar : Bool
  scoreCalculado : Option String := none
  limiteMaximo : Option String := none
  deriving DecidableEq, Repr

/-- The dict `Orchestrator.processar_mensagem` returns. -/
structure OrchResposta where
  resposta : String
  encerrar : Bool
  agenteAtual : String
  erro : Option String
  scoreCalculado : Option String
  limiteMaximo : Option String
  deriving DecidableEq, Repr

/-- Mutable orchestrator state: `self.agente_atual` and `self.contexto`. -/
structure OrchState where
  agenteAtual : AgentName
  contexto : Contexto
  deriving DecidableEq, Repr

/-- The family of handlers, abstracted over their internals: `processar` as a
function of (message, shared context), possibly raising. -/
def Agentes := AgentName → String → Contexto → Except String AgentResult

/-- Mirror of `Orchestrator._obter_nome_agente_atual` (lines 155-166). -/
def nomeAgente : AgentName → String
  | AgentName.triagem => "Triagem"
  | AgentName.credito => "Crédito"
  | AgentName.entrevista => "Entrevista de Crédito"
  | AgentName.cambio => "Câmbio"

/-- The `mapeamento` dict of `_trocar_agente` (lines 137-142). -/
def nomeParaAgente : String → Option AgentName
  | "triagem" => some AgentName.triagem
  | "credito" => some AgentName.credito
  | "entrevista" => some AgentName.entrevista
  | "cambio" => some AgentName.cambio
  | _ => none

/-- Mirror of `Orchestrator._trocar_agente` (lines 129-153): switch only when
the name is registered.  (The customer handover into the new agent's private
fields is internal to the handlers and outside this state.) -/
def trocarAgente (atual : AgentName) (nome : String) : AgentName :=
  match nomeParaAgente nome with
  | some novo => novo
  | none => atual

/-- Python truthiness of `resultado.get("cliente")`: present and non-empty. -/
def clienteTruthy : Option Cliente → Bool
  | none => false
  | some c => !(List.isEmpty c)

/-- Python truthiness of `resultado.get("proximo_agente")`: present and not
the empty string. -/
def proximoTruthy : Option String → Bool
  | none => false
  | some nome => !(nome == "")

/-- Python `str.strip` on char lists (`String.trim` is equivalent but is not
kernel-reducible, so the embedding carries its own). -/
def aparar (s : String) : String :=
  ⟨((s.toList.dropWhile Char.isWhitespace).reverse.dropWhile Char.isWhitespace).reverse⟩

/-- The context update of lines 72-75: when the handler returned a (truthy)
customer, store it, its cpf, and mark the context authenticated. -/
def aplicarCliente (ctx : Contexto) (r : AgentResult) : Contexto :=
  if clienteTruthy r.cliente then
    { ctx with
      cliente := r.cliente,
      cpf := ((r.cliente.getD []).find? (fun p => p.1 == "cpf")).map (fun p => p.2),
      autenticado := true }
  else ctx

/-- The successful tail of `processar_mensagem` (lines 96-111): append the
turn to `historico` and build the returned dict. -/
def concluirTurno (ag : AgentName) (ctx : Contexto) (r : AgentResult)
    (mensagem : String) : OrchResposta × OrchState :=
  let ctxF := { ctx with historico := ctx.historico ++
    [{ usuario := mensagem, agente := r.resposta, agenteAtual := nomeAgente ag }] }
  ({ resposta := r.resposta
     encerrar := r.encerrar
     agenteAtual := nomeAgente ag
     erro := none
     scoreCalculado := r.scoreCalculado
     limiteMaximo := r.limiteMaximo },
   { agenteAtual := ag, contexto := ctxF })

/-- The `except` branch of `processar_mensagem` (lines 113-127): catch,
answer with the error text, `encerrar = False`; no `historico` append. -/
def erroResposta (st : OrchState) (e : String) : OrchResposta × OrchState :=
  ({ resposta := "❌ Erro na interpretação da IA: " ++ e
     encerrar := false
     agenteAtual := nomeAgente st.agenteAtual
     erro := some e
     scoreCalculado := none
     limiteMaximo := none },
   st)

/-- Mirror of `Orchestrator.processar_mensagem` (lines 39-127): run the
current handler; merge customer data; on a (truthy) next-handler directive
switch agents, and when the outgoing reply was empty or whitespace-only
re-invoke the new handler once with the same message; append the turn to the
history; exceptions are caught at whichever point they arise, the state
keeping the updates already applied. -/
def processarMensagem (agentes : Agentes) (st : OrchState) (mensagem : String) :
    OrchResposta × OrchState :=
  match agentes st.agenteAtual mensagem st.contexto with
  | Except.error e => erroResposta st e
  | Except.ok resultado =>
    let ctx1 := aplicarCliente st.contexto resultado
    if proximoTruthy resultado.proximoAgente then
      let ag1 := trocarAgente st.agenteAtual (resultado.proximoAgente.getD "")
      if aparar resultado.resposta == "" then
        match agentes ag1 mensagem ctx1 with
        | Except.error e => erroResposta { agenteAtual := ag1, contexto := ctx1 } e
        | Except.ok r2 => concluirTurno ag1 ctx1 r2 mensagem
      else concluirTurno ag1 ctx1 resultado mensagem
    else concluirTurno st.agenteAtual ctx1 resultado mensagem

/-! ### The triage handler's authentication branch
(`TriagemAgent.processar`, stage `coletando_nascimento`, lines 121-217) -/

/-- `self.estado` of `TriagemAgent`. -/
structure TriagemEstado where
  etapa : String
  tentativasFalha : Nat
  cpf : Option String
  dataNascimento : Option String
  cliente : Option Cliente
  deriving DecidableEq, Repr

/-- The dict `TriagemAgent.processar` returns. -/
structure TriagemRetorno where
  resposta : String
  proximoAgente : Option String
  autenticado : Bool
  cliente : Option Cliente
  encerrar : Bool
  deriving DecidableEq, Repr

/-- Outcome of the LLM-driven `processar_com_comandos` helper, as an oracle:
either the triple `(resposta_final, comando, dados_comando["dados"])` or a
raised exception. -/
inductive CmdOutcome
  | ok (respostaFinal : Option String) (comando : Option String) (dados : Option String)
  | raise (e : String)
  deriving DecidableEq, Repr

/-- Mirror of `re.match(r'\d{4}-\d{2}-\d{2}', s)` (anchored at the start). -/
def matchFormatoData (s : String) : Bool :=
  match s.toList with
  | a :: b :: c :: d :: h1 :: e :: f :: h2 :: g :: h :: _ =>
      a.isDigit && b.isDigit && c.isDigit && d.isDigit && h1 == '-' &&
      e.isDigit && f.isDigit && h2 == '-' && g.isDigit && h.isDigit
  | _ => false

/-- The message of the Python `NameError` raised by line 197
(`resposta = resposta_llm`, an undefined name), which the surrounding
`except Exception` catches. -/
def nameErrorMsg : String := "name 'resposta_llm' is not defined"

/-- The bottom of `TriagemAgent.processar` (lines 299-307): the fall-through
return for a non-early-returning branch. -/
def triagemRetornoFinal (st : TriagemEstado) (resposta : String) :
    TriagemRetorno × TriagemEstado :=
  ({ resposta := resposta
     proximoAgente := none
     autenticado := st.etapa == "autenticado"
     cliente := st.cliente
     encerrar := false },
   st)

/-- The shared authentication step of the main (command) path, lines 167-194:
record the date, authenticate, and either greet (success), end the
conversation (third failure), or reset to CPF collection. -/
def triagemAutenticarPrincipal (autenticar : Option String → String → Option Cliente)
    (st : TriagemEstado) (d : String) : TriagemRetorno × TriagemEstado :=
  let st1 := { st with dataNascimento := some d }
  match autenticar st.cpf d with
  | some c =>
      let st2 := { st1 with cliente := some c, etapa := "autenticado", tentativasFalha := 0 }
      triagemRetornoFinal st2
        ("Ótimo! Autenticação realizada com sucesso, " ++
          (((c.find? (fun p => p.1 == "nome")).map (fun p => p.2)).getD "cliente") ++
          ". Como posso ajudá-lo hoje?")
  | none =>
      let novo : Nat := st1.tentativasFalha + 1
      if novo ≥ 3 then
        ({ resposta := "Lamento, mas não foi possível autenticar após várias tentativas. Por favor, entre em contato com nosso suporte para verificar seus dados. Tenha um ótimo dia!"
           proximoAgente := none
           autenticado := false
           cliente := none
           encerrar := true },
         { st1 with tentativasFalha := novo, etapa := "falha" })
      else
        let restantes : Int := 3 - Int.ofNat novo
        triagemRetornoFinal
          { st1 with tentativasFalha := novo, etapa := "coletando_cpf",
                     cpf := none, dataNascimento := none }
          ("Dados não conferem. Você tem " ++ toString restantes ++
            " tentativa(s) restante(s). Por favor, informe novamente seu CPF.")

/-- The authentication step of the `except` fallback path, lines 199-215:
like the main path but with no third-failure cutoff — the failure branch
always resets to CPF collection with `encerrar = False`, even on the third
consecutive failure. -/
def triagemAutenticarFallback (autenticar : Option String → String → Option Cliente)
    (st : TriagemEstado) (d : String) : TriagemRetorno × TriagemEstado :=
  let st1 := { st with dataNascimento := some d }
  match autenticar st.cpf d with
  | some c =>
      let st2 := { st1 with cliente := some c, etapa := "autenticado", tentativasFalha := 0 }
      triagemRetornoFinal st2
        ("Ótimo! Autenticação realizada com sucesso, " ++
          (((c.find? (fun p => p.1 == "nome")).map (fun p => p.2)).getD "cliente") ++
          ". Como posso ajudá-lo hoje?")
  | none =>
      let novo : Nat := st1.tentativasFalha + 1
      let restantes : Int := 3 - Int.ofNat novo
      triagemRetornoFinal
        { st1 with tentativasFalha := novo, etapa := "coletando_cpf",
                   cpf := none, dataNascimento := none }
        ("Dados não conferem. Você tem " ++ toString restantes ++
          " tentativa(s) restante(s). Por favor, informe novamente seu CPF.")

/-- The `except Exception as e` fallback of lines 198-217: re-extract the
date directly from the message; authenticate without the cutoff, or complain
carrying the exception text. -/
def triagemNascimentoExcept (autenticar : Option String → String → Option Cliente)
    (extrairData : Option String) (e : String) (st : TriagemEstado) :
    TriagemRetorno × TriagemEstado :=
  match extrairData with
  | some d => triagemAutenticarFallback autenticar st d
  | none =>
      triagemRetornoFinal st
        ("❌ Erro na interpretação da IA: " ++ e ++
          ". Por favor, informe sua data de nascimento no formato DD/MM/AAAA ou AAAA-MM-DD.")

/-- Mirror of the `coletando_nascimento` branch of `TriagemAgent.processar`
(lines 121-217).  `cmd` is the oracle for `processar_com_comandos`;
`extrairData` is the value of `self._extrair_data_nascimento(mensagem)`
(the date-regex extraction from the raw message).  The branch yields either
the early third-failure return or the bottom-of-`processar` return.  When no
date is obtained on the command path, line 197 reads the undefined name
`resposta_llm`, so control transfers to the `except` fallback with a
`NameError`. -/
def triagemNascimento (cmd : CmdOutcome)
    (extrairData : Option String)
    (autenticar : Option String → String → Option Cliente)
    (st : TriagemEstado) : TriagemRetorno × TriagemEstado :=
  match cmd with
  | CmdOutcome.raise e => triagemNascimentoExcept autenticar extrairData e st
  | CmdOutcome.ok _ comando dados =>
      let dataNasc : Option String :=
        if comando == some "DATA" && dados.isSome then
          let d := aparar (dados.getD "")
          if matchFormatoData d then some d else extrairData
        else extrairData
      match dataNasc with
      | some d => triagemAutenticarPrincipal autenticar st d
      | none => triagemNascimentoExcept autenticar extrairData nameErrorMsg st

deriving instance DecidableEq for Except

/-! ### Concrete scenarios used by witnesses and counterexamples -/

/-- A successful provider response with plain text content. -/
def respB3 : LLMResponse := { content := RespContent.texto "ok", toolCalls := [] }

/-- Spec §8 scenario provider: modelA reports capacity exhaustion on every
key; modelB succeeds on keyX. -/
def providerC3 : Provider := fun modelo key =>
  if modelo == "modelA" then ProviderOutcome.failure "429"
  else if key == "keyX" then ProviderOutcome.success respB3
  else ProviderOutcome.failure "429"

/-- Spec §8 scenario pool: candidates [modelA, modelB], slots [keyX, keyY]. -/
def gwStC3 : GwState :=
  { modelosFallback := ["modelA", "modelB"]
    apiKeys := ["keyX", "keyY"]
    apiKeyIdx := 0
    apiKey := "keyX"
    esgotados := [("keyX", [])]
    modeloAtualIdx := 0
    modeloAtual := "modelA" }

/-- A provider whose every request fails with a quota error. -/
def providerAll429 : Provider := fun _ _ => ProviderOutcome.failure "429 quota"

/-- A provider whose every request fails with a non-quota error. -/
def providerFatal : Provider := fun _ _ => ProviderOutcome.failure "bad request"

/-- A small well-formed pool used by gateway witnesses. -/
def gwStC1 : GwState :=
  { modelosFallback := ["modelA", "modelB"]
    apiKeys := ["keyX", "keyY"]
    apiKeyIdx := 0
    apiKey := "keyX"
    esgotados := [("keyX", [])]
    modeloAtualIdx := 0
    modeloAtual := "modelA" }

/-- An LLM oracle that always requests one further tool call. -/
def llmSempreTool : LlmOraculo := fun _ =>
  Except.ok { content := RespContent.vazio,
              toolCalls := [{ name := "foo", args := [], id := "1" }] }

/-- An LLM oracle that calls a tool once and then answers with text. -/
def llmUmaTool : LlmOraculo := fun msgs =>
  if msgs.length ≤ 3 then
    Except.ok { content := RespContent.vazio,
                toolCalls := [{ name := "quebra", args := [], id := "7" }] }
  else
    Except.ok { content := RespContent.texto "pronto", toolCalls := [] }

/-- A registered tool that always raises. -/
def toolsQueQuebram : ToolTable :=
  [("quebra", fun _ => Except.error "estouro")]

/-- A tool call naming no registered operation. -/
def tcNaoExiste : ToolCall := { name := "naoExiste", args := [], id := "9" }

/-- A tool call naming the registered always-raising operation. -/
def tcQuebra : ToolCall := { name := "quebra", args := [], id := "8" }

/-- The empty shared context at conversation start. -/
def ctx0 : Contexto := { cliente := none, cpf := none, autenticado := false, historico := [] }

/-- Orchestrator state at conversation start (entry handler: triage). -/
def st0 : OrchState := { agenteAtual := AgentName.triagem, contexto := ctx0 }

/-- Handlers for the handoff-invisibility scenario: triage yields an empty
reply with a handoff to the exchange handler, which answers with text. -/
def agentesC7 : Agentes := fun a _m _ctx =>
  match a with
  | AgentName.triagem => Except.ok
      { resposta := "", proximoAgente := some "cambio", autenticado := true,
        cliente := some [("cpf", "123"), ("nome", "Ana")], encerrar := false }
  | _ => Except.ok
      { resposta := "Cotação do dólar: 5", proximoAgente := none, autenticado := true,
        cliente := none, encerrar := false }

/-- Handlers where triage hands off with an empty reply and the target
handler raises. -/
def agentesC8 : Agentes := fun a _m _ctx =>
  match a with
  | AgentName.triagem => Except.ok
      { resposta := "", proximoAgente := some "credito", autenticado := true,
        cliente := none, encerrar := false }
  | _ => Except.error "boom"

/-- Handlers whose every `processar` raises. -/
def agentesFalham : Agentes := fun _ _ _ => Except.error "falha"

/-- Handlers whose every `processar` answers plainly. -/
def agentesOk : Agentes := fun _ _ _ => Except.ok
  { resposta := "Olá", proximoAgente := none, autenticado := false,
    cliente := none, encerrar := false }

/-- Authentication oracle that always rejects. -/
def autNega : Option String → String → Option Cliente := fun _ _ => none

/-- Triage state at the birth-date stage with two failures accumulated. -/
def stT2 : TriagemEstado :=
  { etapa := "coletando_nascimento", tentativasFalha := 2, cpf := some "12345678901",
    dataNascimento := none, cliente := none }

/-! ## Lemmas about the gateway pool -/

/-- Within one agent instance the shared key and the instance key coincide,
so the synchronization step is the identity. -/
theorem sincronizar_id (st : GwState) (h : st.apiKey = st.apiKeys.getD st.apiKeyIdx "") :
    sincronizar st = st := by
  unfold sincronizar
  simp [h]

/-- Index bounds of the next-available-model search. -/
theorem procuraProximo_some :
    ∀ (l esg : List String) (start idx : Nat) (m : String),
      procuraProximo esg l start = some (idx, m) → start ≤ idx ∧ idx < start + l.length := by
  intro l
  induction l with
  | nil =>
      intro esg start idx m h
      simp [procuraProximo] at h
  | cons a resto ih =>
      intro esg start idx m h
      unfold procuraProximo at h
      by_cases hc : a ∈ esg
      · simp [hc] at h
        have h2 := ih esg (start + 1) idx m h
        refine ⟨by omega, ?_⟩
        simp only [List.length_cons]
        omega
      · simp [hc] at h
        obtain ⟨h1, _⟩ := h
        subst h1
        refine ⟨Nat.le_refl _, ?_⟩
        simp only [List.length_cons]
        omega

/-- A successful `_trocar_api_key` advances the key index by one, staying in
range, and changes nothing else relevant to well-formedness. -/
theorem trocarApiKey_true (st stA : GwState) (h : trocarApiKey st = (true, stA)) :
    stA.apiKeyIdx = st.apiKeyIdx + 1 ∧ stA.apiKeyIdx < st.apiKeys.length ∧
      stA.modelosFallback = st.modelosFallback ∧ stA.apiKeys = st.apiKeys ∧
      stA.modeloAtualIdx = st.modeloAtualIdx := by
  unfold trocarApiKey at h
  split at h
  next hcond =>
    injection h with h1 h2
    subst h2
    refine ⟨rfl, by simp; omega, rfl, rfl, rfl⟩
  next hcond =>
    injection h with h1
    simp at h1

/-- A successful `trocarModeloAux` preserves the configured lists, preserves
well-formedness and strictly decreases the pool measure. -/
theorem trocarModeloAux_true (st1 st2 : GwState) (hwf : GwWF st1)
    (h : trocarModeloAux st1 = (true, st2)) :
    GwWF st2 ∧ st2.modelosFallback = st1.modelosFallback ∧
      st2.apiKeys = st1.apiKeys ∧ nuMedida st2 < nuMedida st1 := by
  obtain ⟨hk, ha, hm⟩ := hwf
  unfold trocarModeloAux at h
  split at h
  case h_1 idx modelo hp =>
    have hb := procuraProximo_some _ _ _ _ _ hp
    rw [List.length_drop] at hb
    injection h with h1 h2
    subst h2
    refine ⟨⟨hk, ha, by simp; omega⟩, by simp, by simp, ?_⟩
    unfold nuMedida
    simp only [GwState.modelosFallback, GwState.apiKeys, GwState.apiKeyIdx, GwState.modeloAtualIdx]
    generalize (st1.apiKeys.length - st1.apiKeyIdx) * (st1.modelosFallback.length + 1) = P
    omega
  case h_2 hp =>
    rcases hak : trocarApiKey st1 with ⟨b, stA⟩
    rw [hak] at h
    cases b
    · injection h with h1
      simp at h1
    · obtain ⟨hi1, hi2, hi3, hi4, hi5⟩ := trocarApiKey_true st1 stA hak
      injection h with h1 h2
      subst h2
      refine ⟨⟨by simp [hi4]; omega, by simp, by simp [hi3]; omega⟩,
        by simp [hi3], by simp [hi4], ?_⟩
      unfold nuMedida
      simp only [GwState.modelosFallback, GwState.apiKeys, GwState.apiKeyIdx,
        GwState.modeloAtualIdx]
      rw [hi1, hi3, hi4]
      have hA : st1.apiKeys.length - st1.apiKeyIdx =
          (st1.apiKeys.length - (st1.apiKeyIdx + 1)) + 1 := by
        omega
      rw [hA, Nat.succ_mul]
      generalize (st1.apiKeys.length - (st1.apiKeyIdx + 1)) * (st1.modelosFallback.length + 1) = P
      omega

/-- A successful `_trocar_modelo` preserves the configured lists, preserves
well-formedness and strictly decreases the pool measure. -/
theorem trocarModelo_true (st st2 : GwState) (hwf : GwWF st)
    (h : trocarModelo st = (true, st2)) :
    GwWF st2 ∧ st2.modelosFallback = st.modelosFallback ∧
      st2.apiKeys = st.apiKeys ∧ nuMedida st2 < nuMedida st := by
  unfold trocarModelo at h
  have hwf1 : GwWF { st with esgotados := addEsgotado st.esgotados st.apiKey st.modeloAtual } := by
    obtain ⟨hk, ha, hm⟩ := hwf
    exact ⟨hk, ha, hm⟩
  have h2 := trocarModeloAux_true _ st2 hwf1 h
  simpa [nuMedida] using h2

/-- The pool measure of a well-formed state is below `bConst`. -/
theorem nuMedida_lt_bConst (st : GwState) (hwf : GwWF st) : nuMedida st < bConst st := by
  obtain ⟨hk, _, hm⟩ := hwf
  unfold nuMedida bConst
  have h1 : (st.apiKeys.length - st.apiKeyIdx) * (st.modelosFallback.length + 1) ≤
      st.apiKeys.length * (st.modelosFallback.length + 1) :=
    Nat.mul_le_mul_right _ (by omega)
  have h2 : (st.apiKeys.length + 1) * (st.modelosFallback.length + 1) =
      st.apiKeys.length * (st.modelosFallback.length + 1) + (st.modelosFallback.length + 1) := by
    ring
  rw [h2]
  generalize hP : (st.apiKeys.length - st.apiKeyIdx) * (st.modelosFallback.length + 1) = P at h1
  generalize hQ : st.apiKeys.length * (st.modelosFallback.length + 1) = Q at h1 ⊢
  omega

/-- A failed attempt strictly decreases the combined measure. -/
theorem mu_quota {B nu nu2 tent maxT : Nat} (h : tent < maxT) (hb : nu2 < B) :
    (maxT - (tent + 1)) * B + nu2 < (maxT - tent) * B + nu := by
  have hA : maxT - tent = (maxT - (tent + 1)) + 1 := by omega
  rw [hA, Nat.succ_mul]
  generalize (maxT - (tent + 1)) * B = P
  omega

/-- With fuel above the combined measure, the gateway loop never runs out of
fuel: the `while` loop of `invocar_llm` terminates. -/
theorem invocarLlmLoop_termina (provider : Provider) :
    ∀ (fuel : Nat) (st : GwState) (tent maxT : Nat), GwWF st →
      muMedida st tent maxT < fuel →
      ∀ t, (invocarLlmLoop provider fuel st tent maxT).1 ≠ GwOutcome.outOfFuel t := by
  intro fuel
  induction fuel with
  | zero =>
      intro st tent maxT _ hmu
      exact absurd hmu (Nat.not_lt_zero _)
  | succ f ih =>
      intro st tent maxT hwf hmu t
      have hs := sincronizar_id st hwf.2.1
      by_cases hg : tent < maxT
      · by_cases hc : st.modeloAtual ∈ esgotadosAtual st
        · rcases htm : trocarModelo st with ⟨b, st2⟩
          cases b
          · simp [invocarLlmLoop, hg, hs, hc, htm]
          · obtain ⟨hwf2, hfb, hak, hnu⟩ := trocarModelo_true st st2 hwf htm
            have hB : bConst st2 = bConst st := by
              unfold bConst
              rw [hfb, hak]
            have hmu2 : muMedida st2 tent maxT < f := by
              unfold muMedida at hmu ⊢
              rw [hB]
              generalize (maxT - tent) * bConst st = P at hmu ⊢
              omega
            simpa [invocarLlmLoop, hg, hs, hc, htm] using ih st2 tent maxT hwf2 hmu2 t
        · rcases hp : provider st.modeloAtual st.apiKey with r | e
          · simp [invocarLlmLoop, hg, hs, hc, hp]
          · by_cases hq : isQuotaExceededError e
            · rcases htm : trocarModelo st with ⟨b, st2⟩
              cases b
              · simp [invocarLlmLoop, hg, hs, hc, hp, hq, htm]
              · obtain ⟨hwf2, hfb, hak, hnu⟩ := trocarModelo_true st st2 hwf htm
                have hB : bConst st2 = bConst st := by
                  unfold bConst
                  rw [hfb, hak]
                have hnuB : nuMedida st2 < bConst st := by
                  rw [← hB]
                  exact nuMedida_lt_bConst st2 hwf2
                have hdec := @mu_quota (bConst st) (nuMedida st) (nuMedida st2) tent maxT hg hnuB
                have hmu2 : muMedida st2 (tent + 1) maxT < f := by
                  unfold muMedida at hmu ⊢
                  rw [hB]
                  generalize (maxT - (tent + 1)) * bConst st = P at hdec ⊢
                  generalize (maxT - tent) * bConst st = Q at hdec hmu
                  omega
                simpa [invocarLlmLoop, hg, hs, hc, hp, hq, htm] using ih st2 (tent + 1) maxT hwf2 hmu2 t
            · simp [invocarLlmLoop, hg, hs, hc, hp, hq]
      · simp [invocarLlmLoop, hg]

/-- The attempts counter of the outcome never exceeds `max_tentativas`. -/
theorem invocarLlmLoop_tentativas_le (provider : Provider) :
    ∀ (fuel : Nat) (st : GwState) (tent maxT : Nat), tent ≤ maxT →
      ((invocarLlmLoop provider fuel st tent maxT).1).tentativasDe ≤ maxT := by
  intro fuel
  induction fuel with
  | zero =>
      intro st tent maxT h
      simpa [invocarLlmLoop, GwOutcome.tentativasDe] using h
  | succ f ih =>
      intro st tent maxT h
      by_cases hg : tent < maxT
      · by_cases hc : (sincronizar st).modeloAtual ∈ esgotadosAtual (sincronizar st)
        · rcases htm : trocarModelo (sincronizar st) with ⟨b, st2⟩
          cases b
          · simpa [invocarLlmLoop, hg, hc, htm, GwOutcome.tentativasDe] using h
          · simpa [invocarLlmLoop, hg, hc, htm] using ih st2 tent maxT h
        · rcases hp : provider (sincronizar st).modeloAtual (sincronizar st).apiKey with r | e
          · simpa [invocarLlmLoop, hg, hc, hp, GwOutcome.tentativasDe] using h
          · by_cases hq : isQuotaExceededError e
            · rcases htm : trocarModelo (sincronizar st) with ⟨b, st2⟩
              cases b
              · simp [invocarLlmLoop, hg, hc, hp, hq, htm, GwOutcome.tentativasDe]
                omega
              · simpa [invocarLlmLoop, hg, hc, hp, hq, htm] using ih st2 (tent + 1) maxT (by omega)
            · simp [invocarLlmLoop, hg, hc, hp, hq, GwOutcome.tentativasDe]
              omega
      · simpa [invocarLlmLoop, hg, GwOutcome.tentativasDe] using h

/-- The initial combined measure is below the concrete fuel bound. -/
theorem muMedida_lt_gwFuel (st : GwState) (hwf : GwWF st) :
    muMedida st 0 (maxTentativas st) < gwFuel st := by
  have hnu := nuMedida_lt_bConst st hwf
  unfold muMedida gwFuel
  rw [Nat.sub_zero, Nat.succ_mul]
  generalize (maxTentativas st) * bConst st = P
  omega

/-! ## The claims -/

/-- C1: for every invocation of the gateway, the number of failed provider
attempts is at most `len(candidate models) × len(credential slots)`; the
retry loop always terminates (the concrete fuel `gwFuel` is never exhausted),
and the invocation always ends in either a successful response or a raised
terminal error — never an endless loop. -/
theorem claim1_gateway_bounded (provider : Provider) (st : GwState) (hwf : GwWF st) :
    (∀ t, (invocarLlm provider (gwFuel st) st).1 ≠ GwOutcome.outOfFuel t) ∧
    ((invocarLlm provider (gwFuel st) st).1).tentativasDe ≤
      st.modelosFallback.length * st.apiKeys.length ∧
    ((∃ r t, (invocarLlm provider (gwFuel st) st).1 = GwOutcome.ok r t) ∨
      (∃ e t, (invocarLlm provider (gwFuel st) st).1 = GwOutcome.err e t)) := by
  have hterm := invocarLlmLoop_termina provider (gwFuel st) st 0 (maxTentativas st) hwf
    (muMedida_lt_gwFuel st hwf)
  have hle := invocarLlmLoop_tentativas_le provider (gwFuel st) st 0 (maxTentativas st)
    (Nat.zero_le _)
  have hknil : st.apiKeys ≠ [] := by
    intro hnil
    have h1 := hwf.1
    rw [hnil] at h1
    simp at h1
  have hmax : maxTentativas st = st.modelosFallback.length * st.apiKeys.length := by
    unfold maxTentativas
    cases hks : st.apiKeys with
    | nil => exact absurd hks hknil
    | cons a l => simp
  refine ⟨fun t => hterm t, ?_, ?_⟩
  · rw [← hmax]
    exact hle
  · rcases hout : (invocarLlm provider (gwFuel st) st).1 with ⟨r, t⟩ | ⟨e, t⟩ | t
    · exact Or.inl ⟨r, t, rfl⟩
    · exact Or.inr ⟨e, t, rfl⟩
    · exact absurd hout (hterm t)

/-- Witness for C1 at a concrete pool and an always-exhausted provider. -/
theorem claim1_gateway_bounded_witness :
    GwWF gwStC1 ∧
      ((invocarLlm providerAll429 (gwFuel gwStC1) gwStC1).1).tentativasDe ≤
        gwStC1.modelosFallback.length * gwStC1.apiKeys.length :=
  ⟨by decide, (claim1_gateway_bounded providerAll429 gwStC1 (by decide)).2.1⟩

/-- C2: a provider failure not classified as a quota/capacity error is
propagated immediately as a fatal error from the same attempt: no retry, no
pool advancement — the state (in particular its exhaustion map) is returned
unchanged. -/
theorem claim2_nonquota_fatal (provider : Provider) (st : GwState)
    (tent maxT fuel : Nat) (e : String) (hwf : GwWF st) (hg : tent < maxT)
    (hni : st.modeloAtual ∉ esgotadosAtual st)
    (hp : provider st.modeloAtual st.apiKey = ProviderOutcome.failure e)
    (hq : isQuotaExceededError e = false) :
    invocarLlmLoop provider (fuel + 1) st tent maxT =
      ((GwOutcome.err (GwError.fatal ("Erro ao chamar LLM: " ++ e)) (tent + 1)), st) := by
  have hs := sincronizar_id st hwf.2.1
  simp [invocarLlmLoop, hg, hs, hni, hp, hq]

/-- Witness for C2: a non-quota failure at a concrete state is fatal on the
first attempt, leaving the state untouched. -/
theorem claim2_nonquota_fatal_witness :
    invocarLlmLoop providerFatal (9 + 1) gwStC1 0 4 =
      ((GwOutcome.err (GwError.fatal ("Erro ao chamar LLM: " ++ "bad request")) (0 + 1)),
        gwStC1) :=
  claim2_nonquota_fatal providerFatal gwStC1 0 4 9 "bad request" (by decide) (by decide)
    (by decide) rfl (by decide)

/-- C3 counterexample: in the spec §8 scenario (pool [modelA, modelB] ×
[keyX, keyY]; modelA exhausted on both keys; modelB/keyX succeeds) the
gateway succeeds on the 2nd attempt (after exactly 1 failure), not the 3rd,
and the exhaustion set holds only (keyX, modelA) — the pair (keyY, modelA)
claimed by the spec is never recorded, because the pool advances to the next
candidate of the same slot, not to the next slot of the same candidate. -/
theorem claim3_counterexample :
    (invocarLlm providerC3 (gwFuel gwStC3) gwStC3).1 = GwOutcome.ok respB3 1 ∧
    (invocarLlm providerC3 (gwFuel gwStC3) gwStC3).1 ≠ GwOutcome.ok respB3 2 ∧
    lookupEsgotados (invocarLlm providerC3 (gwFuel gwStC3) gwStC3).2.esgotados "keyX" =
      ["modelA"] ∧
    lookupEsgotados (invocarLlm providerC3 (gwFuel gwStC3) gwStC3).2.esgotados "keyY" = [] := by
  decide

/-- C3 amended: in the spec §8 scenario the gateway returns success on the
2nd attempt and the exhaustion set afterwards is exactly {(keyX, modelA)}:
after a capacity error the pool advances to the next candidate model for the
same credential slot before moving to the next slot. -/
theorem claim3_amended :
    (invocarLlm providerC3 (gwFuel gwStC3) gwStC3).1 = GwOutcome.ok respB3 1 ∧
    (invocarLlm providerC3 (gwFuel gwStC3) gwStC3).2.esgotados = [("keyX", ["modelA"])] := by
  decide

/-! ## Lemmas about the tool-calling execution loop -/

/-- One tool round appends, in order, one `ToolMessage` and one executed-call
record per requested call. -/
theorem processarRodada_spec (tools : ToolTable) :
    ∀ (tcs : List ToolCall) (msgs : List Msg) (execd : List ExecutedCall),
      processarRodada tools tcs msgs execd =
        (msgs ++ tcs.map (fun tc => Msg.toolMsg (execToolCall tools tc) tc.id),
         execd ++ tcs.map (fun tc =>
           { name := tc.name, args := tc.args, result := execToolCall tools tc })) := by
  intro tcs
  induction tcs with
  | nil =>
      intro msgs execd
      simp [processarRodada]
  | cons tc resto ih =>
      intro msgs execd
      simp [processarRodada, ih]

/-- When the LLM oracle never raises, the tool loop always returns normally. -/
theorem toolLoop_total (llm : LlmOraculo) (tools : ToolTable)
    (hllm : ∀ m, ∃ r, llm m = Except.ok r) :
    ∀ (restante : Nat) (msgs : List Msg) (resp : LLMResponse) (execd : List ExecutedCall),
      ∃ t c m2 rem, toolLoop llm tools restante msgs resp execd = Except.ok (t, c, m2, rem) := by
  intro restante
  induction restante with
  | zero =>
      intro msgs resp execd
      exact ⟨_, _, _, _, rfl⟩
  | succ r ih =>
      intro msgs resp execd
      obtain ⟨cont, tcs⟩ := resp
      cases tcs with
      | nil => exact ⟨_, _, _, _, rfl⟩
      | cons a l =>
          obtain ⟨r2, hr2⟩ := hllm (processarRodada tools (a :: l)
            (msgs ++ [Msg.ai { content := cont, toolCalls := a :: l }]) execd).1
          obtain ⟨t, c, m2, rem, hrec⟩ :=
            ih (processarRodada tools (a :: l)
                (msgs ++ [Msg.ai { content := cont, toolCalls := a :: l }]) execd).1 r2
              (processarRodada tools (a :: l)
                (msgs ++ [Msg.ai { content := cont, toolCalls := a :: l }]) execd).2
          refine ⟨t, c, m2, rem, ?_⟩
          rw [toolLoop]
          simp only []
          rw [hr2]
          exact hrec

/-- C4: when every gateway invocation succeeds, the execution loop performs
at most `max_iteracoes = 5` tool rounds and returns normally (the extracted
text, possibly empty, plus the executed calls); in particular, when the bound
is reached while the latest response still contains tool calls, the loop
returns the extracted text and the calls executed so far without raising. -/
theorem claim4_loop_bounded (llm : LlmOraculo) (tools : ToolTable)
    (ps : String) (memoria : List Msg) (um : String) (usar : Bool)
    (hllm : ∀ m, ∃ r, llm m = Except.ok r) :
    (∃ t c m2 n, processarComTools llm tools ps memoria um usar = Except.ok (t, c, m2, n) ∧
      n ≤ maxIteracoes) ∧
    (∀ msgs resp execd, toolLoop llm tools 0 msgs resp execd =
      Except.ok (extrairTextoResposta resp.content, execd, msgs, 0)) := by
  constructor
  · obtain ⟨r0, hr0⟩ := hllm ([Msg.system ps] ++
      (if usar then memoria.drop (memoria.length - 20) else []) ++ [Msg.human um])
    obtain ⟨t, c, m2, rem, hloop⟩ := toolLoop_total llm tools hllm maxIteracoes
      ([Msg.system ps] ++
        (if usar then memoria.drop (memoria.length - 20) else []) ++ [Msg.human um]) r0 []
    refine ⟨t, c, m2, maxIteracoes - rem, ?_, Nat.sub_le _ _⟩
    unfold processarComTools
    rw [hr0]
    simp only []
    rw [hloop]
  · intro msgs resp execd
    rfl

/-- Witness for C4: with an oracle that always requests another tool call and
no registered tools, the loop still returns normally within the bound. -/
theorem claim4_loop_bounded_witness :
    ∃ t c m2 n, processarComTools llmSempreTool [] "sys" [] "oi" true =
      Except.ok (t, c, m2, n) ∧ n ≤ maxIteracoes :=
  (claim4_loop_bounded llmSempreTool [] "sys" [] "oi" true (fun _ => ⟨_, rfl⟩)).1

/-- C5: a tool call naming no registered operation yields the error result
"Ferramenta ... não encontrada"; a registered operation that raises yields
"Erro ao executar ...: ..."; in both cases the loop does not raise — it
appends the error-carrying `ToolMessage` to the transcript, records the call,
and proceeds to the next round. -/
theorem claim5_tool_errors_recovered (tools : ToolTable) (tc : ToolCall) :
    (tools.find? (fun p => p.1 == tc.name) = none →
      execToolCall tools tc = "Ferramenta " ++ tc.name ++ " não encontrada") ∧
    (∀ par e, tools.find? (fun p => p.1 == tc.name) = some par →
      par.2 tc.args = Except.error e →
      execToolCall tools tc = "Erro ao executar " ++ tc.name ++ ": " ++ e) ∧
    (∀ (llm : LlmOraculo) (r : Nat) (msgs : List Msg) (resp : LLMResponse)
        (execd : List ExecutedCall) (resp2 : LLMResponse),
      resp.toolCalls = [tc] →
      llm (msgs ++ [Msg.ai resp] ++ [Msg.toolMsg (execToolCall tools tc) tc.id]) =
        Except.ok resp2 →
      toolLoop llm tools (r + 1) msgs resp execd =
        toolLoop llm tools r
          (msgs ++ [Msg.ai resp] ++ [Msg.toolMsg (execToolCall tools tc) tc.id]) resp2
          (execd ++ [{ name := tc.name, args := tc.args, result := execToolCall tools tc }])) := by
  refine ⟨?_, ?_, ?_⟩
  · intro hn
    simp [execToolCall, hn]
  · intro par e hf he
    simp [execToolCall, hf, he]
  · intro llm r msgs resp execd resp2 hone hllm
    rw [toolLoop]
    rw [hone]
    simp only [processarRodada_spec, List.map_cons, List.map_nil]
    simp only [List.append_assoc] at hllm ⊢
    rw [hllm]

/-- Witness for C5: the missing operation and the raising operation both
produce the documented error strings. -/
theorem claim5_tool_errors_recovered_witness :
    execToolCall toolsQueQuebram tcNaoExiste =
      "Ferramenta " ++ tcNaoExiste.name ++ " não encontrada" ∧
    execToolCall toolsQueQuebram tcQuebra =
      "Erro ao executar " ++ tcQuebra.name ++ ": " ++ "estouro" :=
  ⟨(claim5_tool_errors_recovered toolsQueQuebram tcNaoExiste).1 rfl,
   (claim5_tool_errors_recovered toolsQueQuebram tcQuebra).2.1
     ("quebra", fun _ => Except.error "estouro") "estouro" rfl rfl⟩

/-- Appending a self-complete suffix preserves the transcript invariant. -/
theorem checkMsgs_append :
    ∀ (xs : List Msg) (p : List ToolCall) (ys : List Msg),
      checkMsgs xs p = true → checkMsgs ys [] = true → checkMsgs (xs ++ ys) p = true := by
  intro xs
  induction xs with
  | nil =>
      intro p ys h hys
      cases p with
      | nil => simpa using hys
      | cons tc tcs => simp [checkMsgs] at h
  | cons x resto ih =>
      intro p ys h hys
      cases p with
      | nil =>
          cases x with
          | ai resp =>
              rw [checkMsgs] at h
              rw [List.cons_append, checkMsgs]
              exact ih resp.toolCalls ys h hys
          | system s =>
              rw [checkMsgs] at h
              rw [List.cons_append, checkMsgs]
              exact ih [] ys h hys
          | human s =>
              rw [checkMsgs] at h
              rw [List.cons_append, checkMsgs]
              exact ih [] ys h hys
          | toolMsg s i =>
              rw [checkMsgs] at h
              rw [List.cons_append, checkMsgs]
              exact ih [] ys h hys
      | cons tc tcs =>
          cases x with
          | toolMsg s i =>
              rw [checkMsgs] at h
              rw [Bool.and_eq_true] at h
              rw [List.cons_append, checkMsgs]
              rw [Bool.and_eq_true]
              exact ⟨h.1, ih tcs ys h.2 hys⟩
          | ai resp => rw [checkMsgs] at h; exact absurd h (by simp)
          | system s => rw [checkMsgs] at h; exact absurd h (by simp)
          | human s => rw [checkMsgs] at h; exact absurd h (by simp)

/-- The tool messages produced for a round exactly discharge its pending
calls. -/
theorem checkMsgs_toolMsgs (f : ToolCall → String) :
    ∀ (tcs : List ToolCall),
      checkMsgs (tcs.map (fun tc => Msg.toolMsg (f tc) tc.id)) tcs = true := by
  intro tcs
  induction tcs with
  | nil => simp [checkMsgs]
  | cons tc resto ih =>
      rw [List.map_cons, checkMsgs]
      rw [Bool.and_eq_true]
      exact ⟨by simp, ih⟩

/-- The tool loop preserves the transcript invariant on every normal exit. -/
theorem toolLoop_completos (llm : LlmOraculo) (tools : ToolTable) :
    ∀ (restante : Nat) (msgs : List Msg) (resp : LLMResponse) (execd : List ExecutedCall)
      (t : String) (c : List ExecutedCall) (m2 : List Msg) (rem : Nat),
      toolCallsCompletos msgs = true →
      toolLoop llm tools restante msgs resp execd = Except.ok (t, c, m2, rem) →
      toolCallsCompletos m2 = true := by
  intro restante
  induction restante with
  | zero =>
      intro msgs resp execd t c m2 rem hinv heq
      rw [toolLoop] at heq
      simp only [Except.ok.injEq, Prod.mk.injEq] at heq
      obtain ⟨-, -, hm2, -⟩ := heq
      rw [← hm2]
      exact hinv
  | succ r ih =>
      intro msgs resp execd t c m2 rem hinv heq
      obtain ⟨cont, tcs⟩ := resp
      cases tcs with
      | nil =>
          rw [toolLoop] at heq
          simp only [Except.ok.injEq, Prod.mk.injEq] at heq
          obtain ⟨-, -, hm2, -⟩ := heq
          rw [← hm2]
          exact hinv
      | cons a l =>
          rw [toolLoop] at heq
          simp only [] at heq
          rw [processarRodada_spec] at heq
          have hinv2 : toolCallsCompletos
              ((msgs ++ [Msg.ai { content := cont, toolCalls := a :: l }]) ++
                (a :: l).map (fun tc => Msg.toolMsg (execToolCall tools tc) tc.id)) =
              true := by
            unfold toolCallsCompletos
            rw [List.append_assoc]
            refine checkMsgs_append msgs [] _ hinv ?_
            rw [List.singleton_append, checkMsgs]
            exact checkMsgs_toolMsgs _ (a :: l)
          cases hl : llm ((msgs ++ [Msg.ai { content := cont, toolCalls := a :: l }]) ++
              (a :: l).map (fun tc => Msg.toolMsg (execToolCall tools tc) tc.id)) with
          | error e =>
              rw [hl] at heq
              simp at heq
          | ok resp2 =>
              rw [hl] at heq
              exact ih _ resp2 _ t c m2 rem hinv2 heq

/-- A transcript free of tool calls satisfies the invariant. -/
theorem semToolCalls_completos :
    ∀ (msgs : List Msg), semToolCalls msgs = true → toolCallsCompletos msgs = true := by
  intro msgs
  induction msgs with
  | nil => intro _; rfl
  | cons m resto ih =>
      intro h
      rw [semToolCalls, List.all_cons, Bool.and_eq_true] at h
      cases m with
      | ai resp =>
          have hvazio : resp.toolCalls = [] := by
            have := h.1
            rw [msgSemToolCalls] at this
            exact List.isEmpty_iff.mp this
          unfold toolCallsCompletos
          rw [checkMsgs, hvazio]
          exact ih h.2
      | system s =>
          unfold toolCallsCompletos
          rw [checkMsgs]
          exact ih h.2
      | human s =>
          unfold toolCallsCompletos
          rw [checkMsgs]
          exact ih h.2
      | toolMsg s i =>
          unfold toolCallsCompletos
          rw [checkMsgs]
          exact ih h.2

/-- C6: whenever the execution loop exits normally (including by reaching
`max_iteracoes`), every tool call appearing in the final transcript is
immediately followed by its matching tool-result messages — no tool-call
sequence is left incomplete.  (The shared conversation memory only ever holds
plain text messages, captured by the `semToolCalls` hypothesis.) -/
theorem claim6_transcript_completo (llm : LlmOraculo) (tools : ToolTable)
    (ps : String) (memoria : List Msg) (um : String) (usar : Bool)
    (t : String) (c : List ExecutedCall) (m2 : List Msg) (n : Nat)
    (hmem : semToolCalls memoria = true)
    (hok : processarComTools llm tools ps memoria um usar = Except.ok (t, c, m2, n)) :
    toolCallsCompletos m2 = true := by
  have hini : toolCallsCompletos ([Msg.system ps] ++
      (if usar then memoria.drop (memoria.length - 20) else []) ++ [Msg.human um]) = true := by
    refine semToolCalls_completos _ ?_
    unfold semToolCalls at hmem ⊢
    rw [List.all_append, List.all_append]
    refine (Bool.and_eq_true _ _).mpr ⟨(Bool.and_eq_true _ _).mpr ⟨rfl, ?_⟩, rfl⟩
    cases usar with
    | false => rfl
    | true =>
        simp only [if_true]
        rw [List.all_eq_true] at hmem ⊢
        intro m hm
        exact hmem m (List.drop_subset _ _ hm)
  unfold processarComTools at hok
  cases h0 : llm ([Msg.system ps] ++
      (if usar then memoria.drop (memoria.length - 20) else []) ++ [Msg.human um]) with
  | error e =>
      rw [h0] at hok
      simp at hok
  | ok resposta =>
      rw [h0] at hok
      simp only [] at hok
      cases h1 : toolLoop llm tools maxIteracoes
          ([Msg.system ps] ++
            (if usar then memoria.drop (memoria.length - 20) else []) ++ [Msg.human um])
          resposta [] with
      | error e =>
          rw [h1] at hok
          simp at hok
      | ok quad =>
          rw [h1] at hok
          rcases quad with ⟨t1, c1, m21, rem1⟩
          simp only [Except.ok.injEq, Prod.mk.injEq] at hok
          obtain ⟨-, -, hm2, -⟩ := hok
          rw [← hm2]
          exact toolLoop_completos llm tools maxIteracoes _ resposta [] t1 c1 m21 rem1 hini h1

/-- Witness for C6 on a concrete one-round run whose tool raises. -/
theorem claim6_transcript_completo_witness :
    toolCallsCompletos
      [Msg.system "sys", Msg.human "oi",
       Msg.ai { content := RespContent.vazio,
                toolCalls := [{ name := "quebra", args := [], id := "7" }] },
       Msg.toolMsg "Erro ao executar quebra: estouro" "7"] = true :=
  claim6_transcript_completo llmUmaTool toolsQueQuebram "sys" [] "oi" true
    "pronto" [{ name := "quebra", args := [], result := "Erro ao executar quebra: estouro" }]
    [Msg.system "sys", Msg.human "oi",
     Msg.ai { content := RespContent.vazio,
              toolCalls := [{ name := "quebra", args := [], id := "7" }] },
     Msg.toolMsg "Erro ao executar quebra: estouro" "7"] 1 rfl (by decide)

/-! ## Lemmas and claims about the orchestrator -/

/-- Merging returned customer data never touches the history log. -/
theorem aplicarCliente_historico (ctx : Contexto) (r : AgentResult) :
    (aplicarCliente ctx r).historico = ctx.historico := by
  unfold aplicarCliente
  split <;> rfl

/-- C7: when the current handler returns an empty (or whitespace-only) reply
together with a (registered) next-handler directive, the orchestrator
switches ownership to that handler and re-invokes it once with the same
message, so the reply returned to the caller is the new handler's reply —
never the empty string, provided that reply is non-empty. -/
theorem claim7_handoff_invisivel (agentes : Agentes) (st : OrchState) (m : String)
    (r1 : AgentResult) (nome : String) (ag2 : AgentName) (r2 : AgentResult)
    (h1 : agentes st.agenteAtual m st.contexto = Except.ok r1)
    (hvazia : aparar r1.resposta = "")
    (hn : r1.proximoAgente = some nome)
    (hmap : nomeParaAgente nome = some ag2)
    (h2 : agentes ag2 m (aplicarCliente st.contexto r1) = Except.ok r2)
    (hne : r2.resposta ≠ "") :
    (processarMensagem agentes st m).1.resposta = r2.resposta ∧
    (processarMensagem agentes st m).2.agenteAtual = ag2 ∧
    (processarMensagem agentes st m).1.resposta ≠ "" ∧
    (processarMensagem agentes st m).1.erro = none := by
  have hne2 : nome ≠ "" := by
    intro hx
    rw [hx] at hmap
    have hvz : nomeParaAgente "" = none := rfl
    rw [hvz] at hmap
    cases hmap
  have hpt : proximoTruthy (some nome) = true := by
    unfold proximoTruthy
    simp [hne2]
  have htro : trocarAgente st.agenteAtual nome = ag2 := by
    unfold trocarAgente
    rw [hmap]
  unfold processarMensagem
  rw [h1]
  simp only [hn, hpt, if_true, Option.getD_some, htro, hvazia]
  have hbeq : (("" : String) == "") = true := by decide
  rw [hbeq]
  simp only [if_true, h2]
  unfold concluirTurno
  exact ⟨rfl, rfl, hne, rfl⟩

/-- Witness for C7 on concrete handlers: triage hands off silently to the
exchange handler, whose reply reaches the caller. -/
theorem claim7_handoff_invisivel_witness :
    (processarMensagem agentesC7 st0 "dolar").1.resposta = "Cotação do dólar: 5" ∧
    (processarMensagem agentesC7 st0 "dolar").2.agenteAtual = AgentName.cambio ∧
    (processarMensagem agentesC7 st0 "dolar").1.resposta ≠ "" ∧
    (processarMensagem agentesC7 st0 "dolar").1.erro = none :=
  claim7_handoff_invisivel agentesC7 st0 "dolar"
    { resposta := "", proximoAgente := some "cambio", autenticado := true,
      cliente := some [("cpf", "123"), ("nome", "Ana")], encerrar := false }
    "cambio" AgentName.cambio
    { resposta := "Cotação do dólar: 5", proximoAgente := none, autenticado := true,
      cliente := none, encerrar := false }
    rfl rfl rfl rfl rfl (by decide)

/-- C8 counterexample: triage returns an empty reply with a handoff to the
credit handler, and the re-invoked credit handler raises; the orchestrator
catches, answers with `ended = false` — but the current-handler pointer is
now the credit handler, not the triage handler that was current when the
turn began. -/
theorem claim8_counterexample :
    (processarMensagem agentesC8 st0 "oi").2.agenteAtual = AgentName.credito ∧
    st0.agenteAtual = AgentName.triagem ∧
    (processarMensagem agentesC8 st0 "oi").2.agenteAtual ≠ st0.agenteAtual ∧
    (processarMensagem agentesC8 st0 "oi").1.erro = some "boom" ∧
    (processarMensagem agentesC8 st0 "oi").1.encerrar = false := by
  decide

/-- C8 amended: if the current handler's `processar` raises, the orchestrator
catches it and returns the error reply with `ended = false` and the state
(including the current-handler pointer) unchanged; when the raise instead
occurs in the handler re-invoked after an empty-reply handoff, the reply
still carries `ended = false` but the pointer stays with the new handler. -/
theorem claim8_handler_falha (agentes : Agentes) (st : OrchState) (m : String) :
    (∀ e, agentes st.agenteAtual m st.contexto = Except.error e →
      processarMensagem agentes st m =
        ({ resposta := "❌ Erro na interpretação da IA: " ++ e, encerrar := false,
           agenteAtual := nomeAgente st.agenteAtual, erro := some e,
           scoreCalculado := none, limiteMaximo := none }, st)) ∧
    (∀ r1 nome ag2 e, agentes st.agenteAtual m st.contexto = Except.ok r1 →
      aparar r1.resposta = "" → r1.proximoAgente = some nome →
      nomeParaAgente nome = some ag2 →
      agentes ag2 m (aplicarCliente st.contexto r1) = Except.error e →
      processarMensagem agentes st m =
        ({ resposta := "❌ Erro na interpretação da IA: " ++ e, encerrar := false,
           agenteAtual := nomeAgente ag2, erro := some e,
           scoreCalculado := none, limiteMaximo := none },
         { agenteAtual := ag2, contexto := aplicarCliente st.contexto r1 })) := by
  constructor
  · intro e he
    unfold processarMensagem
    rw [he]
    rfl
  · intro r1 nome ag2 e h1 hvazia hn hmap h2
    have hne2 : nome ≠ "" := by
      intro hx
      rw [hx] at hmap
      have hvz : nomeParaAgente "" = none := rfl
      rw [hvz] at hmap
      cases hmap
    have hpt : proximoTruthy (some nome) = true := by
      unfold proximoTruthy
      simp [hne2]
    have htro : trocarAgente st.agenteAtual nome = ag2 := by
      unfold trocarAgente
      rw [hmap]
    unfold processarMensagem
    rw [h1]
    simp only [hn, hpt, if_true, Option.getD_some, htro, hvazia]
    have hbeq : (("" : String) == "") = true := by decide
    rw [hbeq]
    simp only [if_true, h2]
    rfl

/-- Witness for C8 (amended) at concrete always-raising handlers: the state
comes back unchanged. -/
theorem claim8_handler_falha_witness :
    processarMensagem agentesFalham st0 "oi" =
      ({ resposta := "❌ Erro na interpretação da IA: " ++ "falha", encerrar := false,
         agenteAtual := nomeAgente st0.agenteAtual, erro := some "falha",
         scoreCalculado := none, limiteMaximo := none }, st0) :=
  (claim8_handler_falha agentesFalham st0 "oi").1 "falha" rfl

/-- C9 counterexample: on a turn whose handler raises, the error reply is
returned but nothing is appended to the conversation history — its length is
unchanged, not one greater. -/
theorem claim9_counterexample :
    (processarMensagem agentesFalham st0 "oi").1.erro = some "falha" ∧
    (processarMensagem agentesFalham st0 "oi").2.contexto.historico.length =
      st0.contexto.historico.length ∧
    (processarMensagem agentesFalham st0 "oi").2.contexto.historico.length ≠
      st0.contexto.historico.length + 1 := by
  decide

/-- C9 amended: a turn that completes without an error reply appends exactly
one entry to the conversation history, regardless of handler switches or tool
rounds; a turn that ends in the caught-exception reply leaves the history
unchanged. -/
theorem claim9_memoria (agentes : Agentes) (st : OrchState) (m : String) :
    ((processarMensagem agentes st m).1.erro = none →
      (processarMensagem agentes st m).2.contexto.historico.length =
        st.contexto.historico.length + 1) ∧
    (∀ e, (processarMensagem agentes st m).1.erro = some e →
      (processarMensagem agentes st m).2.contexto.historico.length =
        st.contexto.historico.length) := by
  unfold processarMensagem
  cases h1 : agentes st.agenteAtual m st.contexto with
  | error e =>
      simp only []
      unfold erroResposta
      constructor
      · intro hx
        cases hx
      · intro e2 _
        rfl
  | ok r1 =>
      simp only []
      by_cases hpt : proximoTruthy r1.proximoAgente = true
      · simp only [hpt, if_true]
        by_cases hv : (aparar r1.resposta == "") = true
        · simp only [hv, if_true]
          cases h2 : agentes (trocarAgente st.agenteAtual (r1.proximoAgente.getD "")) m
              (aplicarCliente st.contexto r1) with
          | error e =>
              simp only []
              unfold erroResposta
              constructor
              · intro hx
                cases hx
              · intro e2 _
                simp [aplicarCliente_historico]
          | ok r2 =>
              simp only []
              unfold concluirTurno
              constructor
              · intro _
                simp [aplicarCliente_historico]
              · intro e2 hx
                cases hx
        · simp only [hv, if_false]
          unfold concluirTurno
          constructor
          · intro _
            simp [aplicarCliente_historico]
          · intro e2 hx
            cases hx
      · simp only [hpt, if_false]
        unfold concluirTurno
        constructor
        · intro _
          simp [aplicarCliente_historico]
        · intro e2 hx
          cases hx

/-- Witness for C9 (amended) on a concrete error-free turn. -/
theorem claim9_memoria_witness :
    (processarMensagem agentesOk st0 "oi").2.contexto.historico.length =
      st0.contexto.historico.length + 1 :=
  (claim9_memoria agentesOk st0 "oi").1 (by decide)

/-! ## Claims about the triage authentication flow -/

/-- C10 counterexample: when the third consecutive authentication failure is
processed through the exception-fallback path (lines 199-215 — here the
LLM-driven command helper raised), the failure counter reaches 3 but the
handler does NOT end the conversation: it returns `encerrar = false` and goes
back to CPF collection, promising "0 tentativa(s) restante(s)". -/
theorem claim10_counterexample :
    (triagemNascimento (CmdOutcome.raise "LLM indisponivel") (some "1990-01-01")
        autNega stT2).2.tentativasFalha = 3 ∧
    (triagemNascimento (CmdOutcome.raise "LLM indisponivel") (some "1990-01-01")
        autNega stT2).1.encerrar = false ∧
    (triagemNascimento (CmdOutcome.raise "LLM indisponivel") (some "1990-01-01")
        autNega stT2).2.etapa = "coletando_cpf" ∧
    (triagemNascimento (CmdOutcome.raise "LLM indisponivel") (some "1990-01-01")
        autNega stT2).1.resposta =
      "Dados não conferem. Você tem 0 tentativa(s) restante(s). Por favor, informe novamente seu CPF." := by
  decide

/-- C10 amended: on the main (command) path of the birth-date stage, a failed
authentication that brings the consecutive-failure counter to 3 or more makes
the handler return `encerrar = true` with no next-handler directive and move
to the `falha` stage, while the first and second failures return
`encerrar = false`, reset the collected CPF and birth date, and move back to
CPF collection; the third failure ends the conversation only on this path —
the exception-fallback path never ends it (see the counterexample). -/
theorem claim10_triagem_tentativas (rf : Option String) (dados : String)
    (extr : Option String) (aut : Option String → String → Option Cliente)
    (st : TriagemEstado)
    (hfmt : matchFormatoData (aparar dados) = true)
    (haut : aut st.cpf (aparar dados) = none) :
    (st.tentativasFalha + 1 ≥ 3 →
      triagemNascimento (CmdOutcome.ok rf (some "DATA") (some dados)) extr aut st =
        ({ resposta := "Lamento, mas não foi possível autenticar após várias tentativas. Por favor, entre em contato com nosso suporte para verificar seus dados. Tenha um ótimo dia!"
           proximoAgente := none
           autenticado := false
           cliente := none
           encerrar := true },
         { st with dataNascimento := some (aparar dados),
                   tentativasFalha := st.tentativasFalha + 1, etapa := "falha" })) ∧
    (st.tentativasFalha + 1 < 3 →
      (triagemNascimento (CmdOutcome.ok rf (some "DATA") (some dados)) extr aut st).1.encerrar
          = false ∧
      (triagemNascimento (CmdOutcome.ok rf (some "DATA") (some dados)) extr aut st).1.proximoAgente
          = none ∧
      (triagemNascimento (CmdOutcome.ok rf (some "DATA") (some dados)) extr aut st).2.etapa
          = "coletando_cpf" ∧
      (triagemNascimento (CmdOutcome.ok rf (some "DATA") (some dados)) extr aut st).2.cpf
          = none ∧
      (triagemNascimento (CmdOutcome.ok rf (some "DATA") (some dados)) extr aut st).2.dataNascimento
          = none ∧
      (triagemNascimento (CmdOutcome.ok rf (some "DATA") (some dados)) extr aut st).2.tentativasFalha
          = st.tentativasFalha + 1) := by
  have hred : triagemNascimento (CmdOutcome.ok rf (some "DATA") (some dados)) extr aut st =
      triagemAutenticarPrincipal aut st (aparar dados) := by
    unfold triagemNascimento
    simp [hfmt]
  constructor
  · intro h3
    rw [hred]
    unfold triagemAutenticarPrincipal
    rw [haut]
    have hcond : 3 ≤ st.tentativasFalha + 1 := h3
    simp only [ge_iff_le, hcond, if_true, if_pos]
  · intro h3
    rw [hred]
    unfold triagemAutenticarPrincipal
    rw [haut]
    have hcond : ¬ (st.tentativasFalha + 1 ≥ 3) := by omega
    simp only [hcond, if_false]
    unfold triagemRetornoFinal
    simp [hcond]

/-- Witness for C10 (amended): with two failures accumulated, the next failed
authentication on the command path ends the conversation. -/
theorem claim10_triagem_tentativas_witness :
    triagemNascimento (CmdOutcome.ok none (some "DATA") (some "1990-01-01")) none
        autNega stT2 =
      ({ resposta := "Lamento, mas não foi possível autenticar após várias tentativas. Por favor, entre em contato com nosso suporte para verificar seus dados. Tenha um ótimo dia!"
         proximoAgente := none
         autenticado := false
         cliente := none
         encerrar := true },
       { etapa := "falha", tentativasFalha := 3, cpf := some "12345678901",
         dataNascimento := some "1990-01-01", cliente := none }) :=
  (claim10_triagem_tentativas none "1990-01-01" none autNega stT2 (by decide) rfl).1
    (by decide)

end Desafio
